import Mathlib

/-!
Verification of the dilo-library repository: a React UI component library
scaffold containing a single Navbar component (renders an empty div), its
unit test, its Storybook catalog entry, the lib/index.ts export manifest,
the Vite build configuration and the package manifest.  All definitions
below are shallow embeddings transcribed from the repository sources
(navbar.tsx, lib/index.ts and package.json appear verbatim in the
repository README; the test, stories and vite.config.ts are source files).
-/

/-- A rendered DOM tree: an element with a tag, attribute list and child
list, or a text node.  This models the output of a React render. -/
inductive ReactNode where
  | element (tag : String) (attrs : List (String × String)) (children : List ReactNode) : ReactNode
  | text (s : String) : ReactNode

mutual

/-- The concatenated text content of a node, as the DOM textContent
property computes it. -/
def textContent : ReactNode → String
  | .text s => s
  | .element _ _ cs => textContentList cs

/-- Concatenated text content of a list of sibling nodes. -/
def textContentList : List ReactNode → String
  | [] => ""
  | n :: ns => textContent n ++ textContentList ns

end

mutual

/-- Whether the tree contains an element whose text content equals the
query string.  This models the lookup performed by the testing library
query getByText: it matches elements by their text content and the
assertion succeeds exactly when such an element is found. -/
def hasElementWithText (q : String) : ReactNode → Bool
  | .text _ => false
  | .element _ _ cs => (textContentList cs == q) || hasElementWithTextList q cs

/-- Whether some node of the list contains an element with the given
text content. -/
def hasElementWithTextList (q : String) : List ReactNode → Bool
  | [] => false
  | n :: ns => hasElementWithText q n || hasElementWithTextList q ns

end

/-- The Navbar component, transcribed from navbar.tsx as shown in the
repository README: a propless function component returning a single
empty div element. -/
def Navbar (_ : Unit) : ReactNode :=
  ReactNode.element "div" [] []

/-- The unit test from navbar.spec.tsx: render the Navbar component with
no properties, query the rendered output for the text "Navbar" with
getByText, and assert the result is truthy.  The test passes exactly when
the query finds an element whose text content is "Navbar". -/
def navbarTestPasses : Bool :=
  hasElementWithText "Navbar" (Navbar ())

/-- A Storybook story object: a record of argument overrides for the
component.  The overrides are name/value pairs; the shipped Default story
declares none. -/
structure Story where
  args : List (String × String)
deriving DecidableEq, Repr

/-- Storybook metadata for a component, from navbar.stories.ts: a title
string and the component reference. -/
structure Meta where
  title : String
  component : Unit → ReactNode

/-- The catalog metadata record from navbar.stories.ts. -/
def navbarMeta : Meta :=
  { title := "Navbar Example", component := Navbar }

/-- The Default story exported from navbar.stories.ts: an empty object,
i.e. no argument overrides. -/
def Default : Story :=
  { args := [] }

/-- The named story exports of navbar.stories.ts (the variant set of the
catalog entry): exactly the story named Default. -/
def storyExports : List (String × Story) :=
  [("Default", Default)]

/-- Rendering a named variant of a catalog entry: look the story up among
the entry's exports (failing with none when no such variant exists) and,
since the shipped stories declare no argument overrides and the component
takes no props, apply the component reference to the empty input. -/
def renderStory (m : Meta) (storyName : String) : Option ReactNode :=
  (storyExports.lookup storyName).map (fun _ => m.component ())

/-- The component tree of the repository: path of each component module
paired with the component it defines.  The tree holds exactly the navbar
component. -/
def componentTree : List (String × (Unit → ReactNode)) :=
  [("lib/components/navbar/navbar", Navbar)]

/-- The public export manifest lib/index.ts, transcribed from the
repository README: it imports Navbar from the component tree and
re-exports it under the public name Navbar, and exports nothing else. -/
def libIndex : List (String × (Unit → ReactNode)) :=
  [("Navbar", Navbar)]

/-- Library build options of the Vite configuration: entry point, library
name and the output file name as a function of the output format. -/
structure LibConfig where
  entry : String
  name : String
  fileName : String → String

/-- Rollup output options: global variable names for the externals. -/
structure RollupOutput where
  globals : List (String × String)
deriving DecidableEq, Repr

/-- Rollup options: module identifiers excluded from the bundle and the
output options. -/
structure RollupOptions where
  external : List String
  output : RollupOutput
deriving DecidableEq, Repr

/-- The build section of the Vite configuration. -/
structure BuildConfig where
  lib : LibConfig
  rollupOptions : RollupOptions
  sourcemap : Bool
  emptyOutDir : Bool

/-- The plugins registered in the Vite configuration: the React SWC
plugin, the type-declaration plugin with its rollupTypes flag, and the
plugin that injects the compiled CSS into the JavaScript bundle. -/
inductive VitePlugin where
  | react : VitePlugin
  | dts (rollupTypes : Bool) : VitePlugin
  | cssInjectedByJs : VitePlugin
deriving DecidableEq, Repr

/-- The full Vite configuration record, transcribed from vite.config.ts
(entry is the resolved ./lib/index.ts path, kept here relative to the
project root). -/
structure ViteConfig where
  build : BuildConfig
  plugins : List VitePlugin

/-- The configuration exported by vite.config.ts. -/
def viteConfig : ViteConfig :=
  { build :=
      { lib :=
          { entry := "./lib/index.ts"
            name := "react-beautiful-timeline"
            fileName := fun format => "index." ++ format ++ ".js" }
        rollupOptions :=
          { external := ["react", "react-dom", "tailwindcss"]
            output :=
              { globals :=
                  [("react", "React"),
                   ("react-dom", "ReactDOM"),
                   ("tailwindcss", "tailwindcss")] } }
        sourcemap := true
        emptyOutDir := true }
    plugins := [VitePlugin.react, VitePlugin.dts true, VitePlugin.cssInjectedByJs] }

/-- The two output module formats Vite produces for a single-entry
library build when the configuration lists none explicitly (the es and
umd formats); the package manifest points at exactly these two artifacts
index.es.js and index.umd.js. -/
def libOutputFormats : List String :=
  ["es", "umd"]

/-- The package manifest package.json, transcribed from the repository
README.  The manifest field named private is rendered here as
privateFlag, since that word is reserved in this language. -/
structure PackageJson where
  name : String
  privateFlag : Bool
  version : String
  main : String
  module : String
  types : String
  peerDependencies : List (String × String)
deriving DecidableEq, Repr

/-- The shipped package manifest. -/
def packageJson : PackageJson :=
  { name := "dilo-library"
    privateFlag := true
    version := "0.0.0"
    main := "./dist/index.umd.js"
    module := "./dist/index.es.js"
    types := "./dist/index.d.ts"
    peerDependencies :=
      [("react", "^18.3.1"), ("react-dom", "^18.3.1"), ("tailwindcss", "^3.4.4")] }

/-- Whether npm will publish a package with this manifest: npm refuses to
publish any package whose manifest sets the private field to true. -/
def npmPublishable (p : PackageJson) : Bool :=
  !p.privateFlag

/-- The shell commands of the final build-and-publish instructions of the
repository README, in order. -/
def publishInstructions : List String :=
  ["pnpm run build", "npm publish"]

/-- C1: the unit test renders the Navbar component with no properties and
passes if and only if the rendered output contains an element with the
text "Navbar"; on the shipped component, which renders an empty div and
emits no text, the assertion does not hold, so the test reports failure. -/
theorem navbar_test_passes_iff_text_and_fails_on_shipped :
    (navbarTestPasses = true ↔ hasElementWithText "Navbar" (Navbar ()) = true)
      ∧ navbarTestPasses = false := by
  constructor
  · exact Iff.rfl
  · rfl

/-- C2: rendering the Navbar component produces exactly one static empty
div element with no children, no attributes, and empty text content; in
particular the rendered output contains no element with text "Navbar". -/
theorem navbar_renders_single_empty_div :
    Navbar () = ReactNode.element "div" [] []
      ∧ textContent (Navbar ()) = ""
      ∧ hasElementWithText "Navbar" (Navbar ()) = false := by
  refine ⟨rfl, rfl, rfl⟩

/-- C3: rendering the Navbar component is deterministic and pure: it is a
function of no meaningful input, any two invocations yield identical
output structures, and every invocation yields the same fixed value. -/
theorem navbar_render_deterministic :
    (∀ a b : Unit, Navbar a = Navbar b)
      ∧ (∀ u : Unit, Navbar u = ReactNode.element "div" [] []) := by
  exact ⟨fun _ _ => rfl, fun _ => rfl⟩

/-- C4: the public export manifest lib/index.ts exposes exactly the name
set containing "Navbar", and every name it exposes maps to a component
defined in the repository component tree. -/
theorem export_manifest_exact_and_resolves :
    libIndex.map Prod.fst = ["Navbar"]
      ∧ ∀ p ∈ libIndex, ∃ q ∈ componentTree, q.2 = p.2 := by
  constructor
  · rfl
  · intro p hp
    refine ⟨("lib/components/navbar/navbar", Navbar), by simp [componentTree], ?_⟩
    simp only [libIndex, List.mem_singleton] at hp
    subst hp
    rfl

/-- Concrete instance of C4: the single exported entry, the name "Navbar"
mapped to the Navbar component, resolves to an entry of the component
tree. -/
theorem export_manifest_exact_and_resolves_witness :
    ∃ q ∈ componentTree, q.2 = (Prod.snd (("Navbar", Navbar) : String × (Unit → ReactNode))) :=
  export_manifest_exact_and_resolves.2 ("Navbar", Navbar) (by simp [libIndex])

/-- C5: rendering the Navbar component is a total operation that cannot
fail: every invocation completes and yields the fixed empty div; in
particular rendering the catalog entry variant named "Default", which
supplies no property overrides, completes and yields that div rather
than failing. -/
theorem navbar_render_total_and_default_story_renders :
    (∀ u : Unit, Navbar u = ReactNode.element "div" [] [])
      ∧ renderStory navbarMeta "Default" = some (ReactNode.element "div" [] []) := by
  exact ⟨fun _ => rfl, rfl⟩

/-- C6: the catalog entry is a metadata record with the string title
"Navbar Example" and the Navbar component reference, and its variant set
contains exactly one variant, named "Default", whose story object is
empty (no argument overrides). -/
theorem catalog_entry_shape :
    navbarMeta.title = "Navbar Example"
      ∧ navbarMeta.component = Navbar
      ∧ storyExports = [("Default", Default)]
      ∧ Default.args = [] := by
  exact ⟨rfl, rfl, rfl, rfl⟩

/-- C7: the component referenced by the catalog entry is a component
defined in the repository component tree and is exported through the
public export manifest under some public name. -/
theorem catalog_component_defined_and_exported :
    (∃ q ∈ componentTree, q.2 = navbarMeta.component)
      ∧ ∃ name, (name, navbarMeta.component) ∈ libIndex := by
  constructor
  · exact ⟨("lib/components/navbar/navbar", Navbar), by simp [componentTree], rfl⟩
  · exact ⟨"Navbar", by simp [libIndex, navbarMeta]⟩

/-- C8: the build configuration declares the library entry point
lib/index.ts, names each output file index.<format>.js so the two output
module formats yield index.es.js and index.umd.js, lists react, react-dom
and tailwindcss as externals excluded from the bundle, registers the
CSS-inlining plugin, and registers the type-declaration plugin with
rollupTypes set to true. -/
theorem build_config_shape :
    viteConfig.build.lib.entry = "./lib/index.ts"
      ∧ (∀ format : String,
          viteConfig.build.lib.fileName format = "index." ++ format ++ ".js")
      ∧ libOutputFormats.length = 2
      ∧ libOutputFormats.map viteConfig.build.lib.fileName = ["index.es.js", "index.umd.js"]
      ∧ viteConfig.build.rollupOptions.external = ["react", "react-dom", "tailwindcss"]
      ∧ VitePlugin.cssInjectedByJs ∈ viteConfig.plugins
      ∧ VitePlugin.dts true ∈ viteConfig.plugins := by
  refine ⟨rfl, fun _ => rfl, rfl, rfl, rfl, ?_, ?_⟩
  · simp [viteConfig]
  · simp [viteConfig]

/-- C9: the library name in the build configuration is the string
"react-beautiful-timeline", the package manifest declares the package
name "dilo-library", and these two naming fields disagree. -/
theorem library_name_mismatch :
    viteConfig.build.lib.name = "react-beautiful-timeline"
      ∧ packageJson.name = "dilo-library"
      ∧ viteConfig.build.lib.name ≠ packageJson.name := by
  refine ⟨rfl, rfl, ?_⟩
  decide

/-- C10: the package manifest sets private to true, which makes the
package non-publishable by npm, even though the final instructions of the
repository README end with the npm publish command. -/
theorem package_private_yet_publish_instructed :
    packageJson.privateFlag = true
      ∧ npmPublishable packageJson = false
      ∧ publishInstructions.getLast? = some "npm publish" := by
  exact ⟨rfl, rfl, rfl⟩
